import Mathlib

set_option linter.unnecessarySimpa false

/-!
Verification of the NodeQml engine core (`src/nodeqml/engine.cpp`,
`src/nodeqml/types/errnoexception.cpp`): a shallow embedding of the
timer scheduler, deferred-callback (next-tick) queue, engine-context
registry, module cache and error bridge, followed by theorems settling
the specification claims.

Modelling conventions:
* Script values visible to the engine core are modelled by `JSValue α`,
  where `α` is the opaque type of callable function objects.  Numbers are
  rationals (doubles are a subset of the rationals; the engine only ever
  coerces them with `toInt32`).
* Qt's `QHash` tables are association lists with `QHash::insert` replace
  semantics (`hinsert`), `QHash::remove` (`hremove`), `QHash::contains`
  (`hcontains`) and `QHash::value` (`hfind`).
* `QObject::startTimer` is modelled by passing the id the host allocated
  for this call (`allocId`, with `0` meaning allocation failure, exactly
  the `!timerId` check of the source); a successful start records the id
  and the requested delay in `hostTimers`.  `QObject::killTimer` removes
  the id from `hostTimers`.
* `m_v4->throwError` / `m_v4->throwTypeError` become the `JSError` sum;
  an operation that throws returns the error together with the unchanged
  engine state.
* Invoking a script callback is modelled by an `Invocation` record (the
  callee, the argument list, and the `thisObject` receiver) handed back
  to the host loop; dispatch functions return the engine state as it is
  at the moment the callback is invoked, so state changes appearing in
  that returned state happen strictly before the callback runs.
-/

/-- Script-level dynamic values as seen by the engine core: a number
(`QV4::Value::isNumber`), a callable function object
(`asFunctionObject` non-null), the global object, or anything else. -/
inductive JSValue (α : Type) where
  | num (q : ℚ)
  | func (f : α)
  | global
  | other
deriving DecidableEq

/-- Exceptions raised through the V4 engine: `m_v4->throwError(msg)`
(`thrown`) and `m_v4->throwTypeError(msg)` (`typeError`). -/
inductive JSError where
  | thrown (msg : String)
  | typeError (msg : String)
deriving DecidableEq

/-- `QHash::value(k)` restricted to present keys: the value stored under
`k`, or `none` when `k` is absent. -/
def hfind {κ α : Type} [DecidableEq κ] : List (κ × α) → κ → Option α
  | [], _ => none
  | (k2, v) :: rest, k => if k2 = k then some v else hfind rest k

/-- `QHash::contains(k)`. -/
def hcontains {κ α : Type} [DecidableEq κ] (m : List (κ × α)) (k : κ) : Bool :=
  (hfind m k).isSome

/-- `QHash::remove(k)`: drops every entry stored under `k`. -/
def hremove {κ α : Type} [DecidableEq κ] (m : List (κ × α)) (k : κ) : List (κ × α) :=
  m.filter (fun p => decide (p.1 ≠ k))

/-- `QHash::insert(k, v)`: replaces the value of an existing entry for
`k`, otherwise adds a new entry. -/
def hinsert {κ α : Type} [DecidableEq κ] (m : List (κ × α)) (k : κ) (v : α) : List (κ × α) :=
  (k, v) :: hremove m k

/-- Number of entries stored under key `k`. -/
def countKey {κ α : Type} [DecidableEq κ] (m : List (κ × α)) (k : κ) : Nat :=
  (m.filter (fun p => decide (p.1 = k))).length

/-- Truncation of a rational toward zero (`Int.div` is T-division). -/
def ratTrunc (q : ℚ) : Int := Int.tdiv q.num (q.den : Int)

/-- ECMAScript `ToInt32` on a (finite) numeric value, as performed by
`QV4::Value::toInt32`: truncate toward zero, reduce modulo 2^32, and map
into the signed 32-bit range. -/
def toInt32 (q : ℚ) : Int :=
  let m := ratTrunc q % 4294967296
  if m < 2147483648 then m else m - 4294967296

/-- The clamp the source applies to a timer delay:
`if (delay <= 0) delay = 1;`. -/
def clampDelay (d : Int) : Int := if d ≤ 0 then 1 else d

/-- `INT_MAX`, the priority `EnginePrivate::nextTick` passes to
`QCoreApplication::postEvent`. -/
def intMax : Int := 2147483647

/-- `Qt::LowEventPriority`, the lowest named Qt event priority (the
priority argument of `postEvent` ranges over the C `int` values). -/
def qtLowEventPriority : Int := -1

/-- Mutable per-engine state of `EnginePrivate`: the one-shot callback
table `m_timeoutCallbacks`, the repeating callback table
`m_intervalCallbacks`, and the live host (Qt) timers with their
requested delays. -/
structure EngineState (α : Type) where
  timeoutCallbacks : List (Int × α)
  intervalCallbacks : List (Int × α)
  hostTimers : List (Int × Int)
deriving DecidableEq

/-- A pending script-callback invocation: callee, argument values, and
the `thisObject` receiver of the call. -/
structure Invocation (α : Type) where
  callee : α
  args : List (JSValue α)
  thisObject : JSValue α
deriving DecidableEq

/-- Events posted to the Qt event loop: the engine's private
`NextTickEvent` carrying one callback, or any externally-originated
event (tagged so distinct external events can be told apart). -/
inductive QtEvent (α : Type) where
  | nextTickEv (callback : α)
  | externalEv (tag : Nat)
deriving DecidableEq

/-- A posted event together with its `postEvent` priority. -/
structure Posted (α : Type) where
  event : QtEvent α
  priority : Int
deriving DecidableEq

/-- `QCoreApplication::postEvent(receiver, event, priority)`: the queue
is kept sorted by descending priority, and a new event is inserted after
all queued events of greater or equal priority (FIFO within a priority
level). -/
def postEvent {α : Type} (queue : List (Posted α)) (e : Posted α) : List (Posted α) :=
  match queue with
  | [] => [e]
  | x :: xs => if x.priority < e.priority then e :: x :: xs else x :: postEvent xs e

namespace EnginePrivate

/-- `EnginePrivate::setTimeout`: validates the arguments, coerces the
delay with `toInt32`, clamps non-positive delays to 1, starts a host
timer (`allocId` is the id `startTimer` returned, `0` on failure), and
on success records the callback in `m_timeoutCallbacks` under the host
id and returns the id. -/
def setTimeout {α : Type} (args : List (JSValue α)) (allocId : Int) (s : EngineState α) :
    Except JSError Int × EngineState α :=
  match args with
  | a0 :: a1 :: _ =>
    match a0 with
    | .func cb =>
      match a1 with
      | .num q =>
        let delay := clampDelay (toInt32 q)
        if allocId = 0 then
          (.error (.thrown "setTimeout: cannot start timer"), s)
        else
          (.ok allocId,
            { s with hostTimers := hinsert s.hostTimers allocId delay,
                     timeoutCallbacks := hinsert s.timeoutCallbacks allocId cb })
      | _ => (.error (.typeError "setTimeout: timeout must be an integer"), s)
    | _ => (.error (.typeError "setTimeout: callback must be a function"), s)
  | _ => (.error (.thrown "setTimeout: missing arguments"), s)

/-- `EnginePrivate::setInterval`: same validation and clamping as
`setTimeout`, recording the callback in `m_intervalCallbacks`. -/
def setInterval {α : Type} (args : List (JSValue α)) (allocId : Int) (s : EngineState α) :
    Except JSError Int × EngineState α :=
  match args with
  | a0 :: a1 :: _ =>
    match a0 with
    | .func cb =>
      match a1 with
      | .num q =>
        let delay := clampDelay (toInt32 q)
        if allocId = 0 then
          (.error (.thrown "setInterval: cannot start timer"), s)
        else
          (.ok allocId,
            { s with hostTimers := hinsert s.hostTimers allocId delay,
                     intervalCallbacks := hinsert s.intervalCallbacks allocId cb })
      | _ => (.error (.typeError "setInterval: timeout must be an integer"), s)
    | _ => (.error (.typeError "setInterval: callback must be a function"), s)
  | _ => (.error (.thrown "setInterval: missing arguments"), s)

/-- `EnginePrivate::clearTimeout`: requires a numeric argument, coerces
it with `toInt32`; when the id is in `m_timeoutCallbacks` it kills the
host timer and removes the entry, otherwise it does nothing. -/
def clearTimeout {α : Type} (args : List (JSValue α)) (s : EngineState α) :
    Except JSError Unit × EngineState α :=
  match args with
  | a0 :: _ =>
    match a0 with
    | .num q =>
      let timerId := toInt32 q
      if hcontains s.timeoutCallbacks timerId then
        (.ok (), { s with hostTimers := hremove s.hostTimers timerId,
                          timeoutCallbacks := hremove s.timeoutCallbacks timerId })
      else
        (.ok (), s)
    | _ => (.error (.typeError "clearTimeout: timeout must be an integer (at the moment)"), s)
  | _ => (.error (.thrown "clearTimeout: missing arguments"), s)

/-- `EnginePrivate::clearInterval`, exactly as written in the source:
the guard is `if (!m_intervalCallbacks.contains(timerId))`, so the kill
and remove run when the id is ABSENT from `m_intervalCallbacks` and
nothing happens when it is present. -/
def clearInterval {α : Type} (args : List (JSValue α)) (s : EngineState α) :
    Except JSError Unit × EngineState α :=
  match args with
  | a0 :: _ =>
    match a0 with
    | .num q =>
      let timerId := toInt32 q
      if hcontains s.intervalCallbacks timerId then
        (.ok (), s)
      else
        (.ok (), { s with hostTimers := hremove s.hostTimers timerId,
                          intervalCallbacks := hremove s.intervalCallbacks timerId })
    | _ => (.error (.typeError "clearInterval: timeout must be an integer (at the moment)"), s)
  | _ => (.error (.thrown "clearInterval: missing arguments"), s)

/-- `EnginePrivate::nextTick`: requires at least one argument which must
be callable, then posts a `NextTickEvent` carrying the callback with
priority `INT_MAX`. -/
def nextTick {α : Type} (args : List (JSValue α)) (queue : List (Posted α)) :
    Except JSError (List (Posted α)) :=
  match args with
  | a0 :: _ =>
    match a0 with
    | .func cb => .ok (postEvent queue ⟨.nextTickEv cb, intMax⟩)
    | _ => .error (.typeError "setInterval: callback must be a function")
  | _ => .error (.thrown "setInterval: missing arguments")

/-- `EnginePrivate::customEvent`: a `NextTickEvent` yields exactly one
invocation of its callback with no arguments and the global object as
receiver; any other event is handed to `QObject::customEvent` and yields
no script invocation. -/
def customEvent {α : Type} (e : QtEvent α) : Option (Invocation α) :=
  match e with
  | .nextTickEv cb => some ⟨cb, [], .global⟩
  | .externalEv _ => none

/-- `EnginePrivate::timerEvent`: the firing id is looked up first in
`m_timeoutCallbacks` (kill the host timer and `take` the entry, then
invoke), else in `m_intervalCallbacks` (invoke without removal), else
ignored.  The returned state is the state in effect when the callback
is invoked: the one-shot removal happens strictly before the call. -/
def timerEvent {α : Type} (timerId : Int) (s : EngineState α) :
    EngineState α × Option (Invocation α) :=
  match hfind s.timeoutCallbacks timerId with
  | some cb =>
    ({ s with hostTimers := hremove s.hostTimers timerId,
              timeoutCallbacks := hremove s.timeoutCallbacks timerId },
     some ⟨cb, [], .global⟩)
  | none =>
    match hfind s.intervalCallbacks timerId with
    | some cb => (s, some ⟨cb, [], .global⟩)
    | none => (s, none)

/-- `EnginePrivate::EnginePrivate`'s registration of the context in the
static `m_nodeEngines` table: a plain `QHash::insert` keyed by the V4
engine instance, with no assertion (engines and contexts are abstracted
to their identities). -/
def registerEngine (engines : List (Nat × Nat)) (v4 : Nat) (ctx : Nat) : List (Nat × Nat) :=
  hinsert engines v4 ctx

/-- `EnginePrivate::cacheModule`: `Q_ASSERT(!m_cachedModules.contains(id))`
then insert; an assertion failure is `none`. -/
def cacheModule {μ : Type} (cache : List (String × μ)) (id : String) (m : μ) :
    Option (List (String × μ)) :=
  if hcontains cache id then none
  else some (hinsert cache id m)

end EnginePrivate

/-- Script-visible property set of `Heap::ErrnoExceptionObject`: the
error message, the `errno` property, and the optional `syscall` and
`path` properties (`none` when the property was not defined). -/
structure ErrnoExceptionProps where
  message : String
  errno : Int
  syscall : Option String
  path : Option String
deriving DecidableEq

/-- `Heap::ErrnoExceptionObject::ErrnoExceptionObject`: stores the
message, always defines `errno`, defines `syscall` only when the string
is non-empty, and defines `path` only when the string is non-empty
(`QString::isEmpty` is equality with the empty string). -/
def errnoExceptionObject (message : String) (errorNo : Int) (syscall : String)
    (path : String) : ErrnoExceptionProps :=
  { message := message
    errno := errorNo
    syscall := if syscall = "" then none else some syscall
    path := if path = "" then none else some path }

/-- `EnginePrivate::throwErrnoException`: the message is
`strerror(errorNo)` (the OS-provided string, passed in as `strerrorFn`
since it is external to the engine), and the exception object is built
with no path argument. -/
def throwErrnoException (strerrorFn : Int → String) (errorNo : Int) (syscall : String) :
    ErrnoExceptionProps :=
  errnoExceptionObject (strerrorFn errorNo) errorNo syscall ""

/-! ### Helper lemmas -/

theorem hfind_hinsert_self {κ α : Type} [DecidableEq κ] (m : List (κ × α)) (k : κ) (v : α) :
    hfind (hinsert m k v) k = some v := by
  simp [hinsert, hfind]

theorem hfind_hremove_self {κ α : Type} [DecidableEq κ] (m : List (κ × α)) (k : κ) :
    hfind (hremove m k) k = none := by
  induction m with
  | nil => rfl
  | cons p rest ih =>
    rcases p with ⟨k2, v⟩
    by_cases h : k2 = k
    · simpa [hremove, List.filter_cons, h] using ih
    · simpa [hremove, List.filter_cons, h, hfind] using ih

theorem hcontains_hremove_self {κ α : Type} [DecidableEq κ] (m : List (κ × α)) (k : κ) :
    hcontains (hremove m k) k = false := by
  simp [hcontains, hfind_hremove_self]

theorem countKey_hremove_self {κ α : Type} [DecidableEq κ] (m : List (κ × α)) (k : κ) :
    countKey (hremove m k) k = 0 := by
  induction m with
  | nil => rfl
  | cons p rest ih =>
    rcases p with ⟨k2, v⟩
    by_cases h : k2 = k
    · simpa [hremove, countKey, List.filter_cons, h] using ih
    · simpa [hremove, countKey, List.filter_cons, h] using ih

theorem countKey_hinsert_self {κ α : Type} [DecidableEq κ] (m : List (κ × α)) (k : κ) (v : α) :
    countKey (hinsert m k v) k = 1 := by
  have h0 := countKey_hremove_self m k
  unfold countKey at h0 ⊢
  rw [hinsert, List.filter_cons]
  simp [h0]

theorem postEvent_eq_append {α : Type} (queue : List (Posted α)) (e : Posted α)
    (h : ∀ x ∈ queue, ¬ x.priority < e.priority) :
    postEvent queue e = queue ++ [e] := by
  induction queue with
  | nil => rfl
  | cons x xs ih =>
    have hx := h x (by simp)
    rw [postEvent, if_neg hx, ih (fun y hy => h y (by simp [hy]))]
    rfl

theorem toInt32_small (q : ℚ) (h1 : -2147483648 ≤ ratTrunc q) (h2 : ratTrunc q < 2147483648) :
    toInt32 q = ratTrunc q := by
  rw [toInt32]
  omega

theorem toInt32_intCast (n : Int) (h1 : -2147483648 ≤ n) (h2 : n < 2147483648) :
    toInt32 (n : ℚ) = n := by
  have hn : ratTrunc (n : ℚ) = n := by
    rw [ratTrunc, Rat.num_intCast, Rat.den_intCast]
    exact Int.tdiv_one n
  rw [toInt32, hn]
  omega

theorem toInt32_five_nine : toInt32 (5.9 : ℚ) = 5 := by
  have h1 : (5.9 : ℚ).num = 59 := by norm_num
  have h2 : (5.9 : ℚ).den = 10 := by norm_num
  rw [toInt32, ratTrunc, h1, h2]
  decide

theorem toInt32_one_nine : toInt32 (1.9 : ℚ) = 1 := by
  have h1 : (1.9 : ℚ).num = 19 := by norm_num
  have h2 : (1.9 : ℚ).den = 10 := by norm_num
  rw [toInt32, ratTrunc, h1, h2]
  decide

/-! ### Claim theorems -/

/-- C1: the claim says a registered interval id passed to
`clearInterval` is removed from the table and its host timer cancelled,
and that an unknown id is a no-op with no observable effect.  The
source's guard is inverted (`if (!m_intervalCallbacks.contains(...))`),
so a registered id is left untouched (entry kept, host timer alive)
while an unknown id kills whatever host timer carries that id.  The
statement evaluates the code at both failing inputs: interval id 7 is
registered and survives `clearInterval(7)` with its host timer, and
unknown interval id 3 (a pending one-shot timer's id) gets its host
timer killed. -/
theorem c1_clearInterval_inverted :
    (EnginePrivate.clearInterval [JSValue.num 7] (⟨[], [(7, 0)], [(7, 100)]⟩ : EngineState Nat) =
      (.ok (), ⟨[], [(7, 0)], [(7, 100)]⟩)) ∧
    (EnginePrivate.clearInterval [JSValue.num 3] (⟨[(3, 5)], [], [(3, 50)]⟩ : EngineState Nat) =
      (.ok (), ⟨[(3, 5)], [], []⟩)) := by
  constructor
  · have h7 : toInt32 (7 : ℚ) = 7 := by decide
    simp [EnginePrivate.clearInterval, h7, hcontains, hfind]
  · have h3 : toInt32 (3 : ℚ) = 3 := by decide
    simp [EnginePrivate.clearInterval, h3, hcontains, hfind, hremove, List.filter_cons]

/-- C2 counterexample: registering an `EngineContext` (context 2) for an
engine instance (engine 0) that already has one (context 1) does not
fail: the `QHash::insert` in the `EnginePrivate` constructor silently
replaces the previous entry, so the double registration succeeds and
yields the registry `[(0, 2)]` instead of an assertion failure. -/
theorem c2_registry_double_insert :
    EnginePrivate.registerEngine (EnginePrivate.registerEngine [] 0 1) 0 2 = [(0, 2)] ∧
    hfind (EnginePrivate.registerEngine (EnginePrivate.registerEngine [] 0 1) 0 2) 0 = some 2 := by
  constructor <;> rfl

/-- C2 (amended): inserting a `ModuleRecord` into the module cache for
an identifier already present fails as an assertion
(`Q_ASSERT(!m_cachedModules.contains(id))`), while registering an
`EngineContext` for an engine instance that already has one does NOT
assert: the registry's `QHash::insert` silently replaces the previous
context, so after any registration the registry maps the engine
instance to exactly the new context and holds exactly one entry for
it. -/
theorem c2_assertions_amended {μ : Type} (cache : List (String × μ)) (id : String) (m : μ)
    (reg : List (Nat × Nat)) (e c : Nat) :
    (hcontains cache id = true → EnginePrivate.cacheModule cache id m = none) ∧
    (hcontains cache id = false →
      EnginePrivate.cacheModule cache id m = some (hinsert cache id m)) ∧
    hfind (EnginePrivate.registerEngine reg e c) e = some c ∧
    countKey (EnginePrivate.registerEngine reg e c) e = 1 := by
  refine ⟨?_, ?_, ?_, ?_⟩
  · intro h; simp [EnginePrivate.cacheModule, h]
  · intro h; simp [EnginePrivate.cacheModule, h]
  · exact hfind_hinsert_self reg e c
  · exact countKey_hinsert_self reg e c

/-- C2 witness: concrete instance of `c2_assertions_amended` — caching
module id `"a"` twice hits the assertion, and double-registering engine
0 silently leaves exactly the entry `(0, 2)`. -/
theorem c2_assertions_amended_witness :
    (hcontains [("a", 1)] "a" = true) ∧
    (EnginePrivate.cacheModule [("a", 1)] "a" (2 : Nat) = none) ∧
    hfind (EnginePrivate.registerEngine [(0, 1)] 0 2) 0 = some 2 ∧
    countKey (EnginePrivate.registerEngine [(0, 1)] 0 2) 0 = 1 := by
  refine ⟨by decide, ?_, ?_, ?_⟩
  · exact (c2_assertions_amended [("a", 1)] "a" 2 [(0, 1)] 0 2).1 (by decide)
  · exact (c2_assertions_amended [("a", 1)] "a" (2 : Nat) [(0, 1)] 0 2).2.2.1
  · exact (c2_assertions_amended [("a", 1)] "a" (2 : Nat) [(0, 1)] 0 2).2.2.2

/-- C3 counterexample: the claim says the next-tick wake-up is posted at
the LOWEST available dispatch priority.  `EnginePrivate::nextTick`
passes `INT_MAX` to `postEvent`, the highest possible priority: the
posted event's priority is `2147483647`, strictly greater than (for
instance) `Qt::LowEventPriority = -1`, so it is not the lowest available
priority. -/
theorem c3_priority_not_lowest :
    EnginePrivate.nextTick [JSValue.func (0 : Nat)] [] =
      .ok [⟨QtEvent.nextTickEv 0, intMax⟩] ∧
    intMax = 2147483647 ∧
    qtLowEventPriority < intMax := by
  refine ⟨rfl, rfl, by decide⟩

/-- C4: when the host signals expiry of `timerId`, dispatch looks the id
up first in the one-shot table — the returned state (the state in
effect when the callback is invoked) has the entry removed and the host
timer stopped, so the removal happens strictly before the invocation —
then in the repeating table, invoking without removal and with the
whole state unchanged; an id in neither table yields no invocation and
no state change. -/
theorem c4_timer_dispatch {α : Type} (s : EngineState α) (timerId : Int) :
    (∀ cb, hfind s.timeoutCallbacks timerId = some cb →
      EnginePrivate.timerEvent timerId s =
        ({ s with hostTimers := hremove s.hostTimers timerId,
                  timeoutCallbacks := hremove s.timeoutCallbacks timerId },
         some ⟨cb, [], JSValue.global⟩) ∧
      hfind (EnginePrivate.timerEvent timerId s).1.timeoutCallbacks timerId = none ∧
      hcontains (EnginePrivate.timerEvent timerId s).1.hostTimers timerId = false ∧
      (EnginePrivate.timerEvent timerId s).1.intervalCallbacks = s.intervalCallbacks) ∧
    (hfind s.timeoutCallbacks timerId = none →
      ∀ cb, hfind s.intervalCallbacks timerId = some cb →
        EnginePrivate.timerEvent timerId s = (s, some ⟨cb, [], JSValue.global⟩)) ∧
    (hfind s.timeoutCallbacks timerId = none →
      hfind s.intervalCallbacks timerId = none →
      EnginePrivate.timerEvent timerId s = (s, none)) := by
  refine ⟨?_, ?_, ?_⟩
  · intro cb h
    refine ⟨by simp [EnginePrivate.timerEvent, h], ?_, ?_, ?_⟩
    · simp only [EnginePrivate.timerEvent, h]
      exact hfind_hremove_self s.timeoutCallbacks timerId
    · simp only [EnginePrivate.timerEvent, h]
      exact hcontains_hremove_self s.hostTimers timerId
    · simp only [EnginePrivate.timerEvent, h]
  · intro h1 cb h2
    simp [EnginePrivate.timerEvent, h1, h2]
  · intro h1 h2
    simp [EnginePrivate.timerEvent, h1, h2]

/-- C4 witness: concrete dispatches — firing one-shot id 1 removes the
entry and its host timer before invoking callback 10; firing repeating
id 2 invokes callback 11 and keeps the entry; firing unknown id 3 is
ignored. -/
theorem c4_timer_dispatch_witness :
    (hfind ((⟨[(1, 10)], [], [(1, 5)]⟩ : EngineState Nat)).timeoutCallbacks 1 = some 10 ∧
      hfind (EnginePrivate.timerEvent 1
        (⟨[(1, 10)], [], [(1, 5)]⟩ : EngineState Nat)).1.timeoutCallbacks 1 = none ∧
      hcontains (EnginePrivate.timerEvent 1
        (⟨[(1, 10)], [], [(1, 5)]⟩ : EngineState Nat)).1.hostTimers 1 = false) ∧
    (EnginePrivate.timerEvent 2 (⟨[], [(2, 11)], [(2, 5)]⟩ : EngineState Nat) =
      (⟨[], [(2, 11)], [(2, 5)]⟩, some ⟨11, [], JSValue.global⟩)) ∧
    (EnginePrivate.timerEvent 3 (⟨[], [], []⟩ : EngineState Nat) = (⟨[], [], []⟩, none)) := by
  refine ⟨⟨by decide, ?_, ?_⟩, ?_, ?_⟩
  · exact (((c4_timer_dispatch (⟨[(1, 10)], [], [(1, 5)]⟩ : EngineState Nat) 1).1 10
      (by decide)).2.1)
  · exact (((c4_timer_dispatch (⟨[(1, 10)], [], [(1, 5)]⟩ : EngineState Nat) 1).1 10
      (by decide)).2.2.1)
  · exact ((c4_timer_dispatch (⟨[], [(2, 11)], [(2, 5)]⟩ : EngineState Nat) 2).2.1
      (by decide) 11 (by decide))
  · exact ((c4_timer_dispatch (⟨[], [], []⟩ : EngineState Nat) 3).2.2 (by decide) (by decide))

/-- C5: `setTimeout` and `setInterval` raise an argument error with the
state untouched (so no host timer was started and both callback tables
are unchanged) when given fewer than two arguments, a non-callable
first argument, or a non-numeric second argument; with valid arguments
and a host that returns no timer (`allocId = 0`) they raise a
scheduling error with the state untouched; with valid arguments and a
host timer id they record the callback under that id in their table and
return the id. -/
theorem c5_set_timer_contract {α : Type} (s : EngineState α) (allocId : Int)
    (args : List (JSValue α)) :
    (args.length < 2 →
      EnginePrivate.setTimeout args allocId s =
        (.error (.thrown "setTimeout: missing arguments"), s) ∧
      EnginePrivate.setInterval args allocId s =
        (.error (.thrown "setInterval: missing arguments"), s)) ∧
    (∀ a0 a1 rest, args = a0 :: a1 :: rest → (∀ cb, a0 ≠ JSValue.func cb) →
      EnginePrivate.setTimeout args allocId s =
        (.error (.typeError "setTimeout: callback must be a function"), s) ∧
      EnginePrivate.setInterval args allocId s =
        (.error (.typeError "setInterval: callback must be a function"), s)) ∧
    (∀ cb a1 rest, args = JSValue.func cb :: a1 :: rest → (∀ q, a1 ≠ JSValue.num q) →
      EnginePrivate.setTimeout args allocId s =
        (.error (.typeError "setTimeout: timeout must be an integer"), s) ∧
      EnginePrivate.setInterval args allocId s =
        (.error (.typeError "setInterval: timeout must be an integer"), s)) ∧
    (∀ cb q rest, args = JSValue.func cb :: JSValue.num q :: rest → allocId = 0 →
      EnginePrivate.setTimeout args allocId s =
        (.error (.thrown "setTimeout: cannot start timer"), s) ∧
      EnginePrivate.setInterval args allocId s =
        (.error (.thrown "setInterval: cannot start timer"), s)) ∧
    (∀ cb q rest, args = JSValue.func cb :: JSValue.num q :: rest → allocId ≠ 0 →
      EnginePrivate.setTimeout args allocId s =
        (.ok allocId,
          { s with hostTimers := hinsert s.hostTimers allocId (clampDelay (toInt32 q)),
                   timeoutCallbacks := hinsert s.timeoutCallbacks allocId cb }) ∧
      hfind (EnginePrivate.setTimeout args allocId s).2.timeoutCallbacks allocId = some cb ∧
      (EnginePrivate.setTimeout args allocId s).2.intervalCallbacks = s.intervalCallbacks ∧
      EnginePrivate.setInterval args allocId s =
        (.ok allocId,
          { s with hostTimers := hinsert s.hostTimers allocId (clampDelay (toInt32 q)),
                   intervalCallbacks := hinsert s.intervalCallbacks allocId cb }) ∧
      hfind (EnginePrivate.setInterval args allocId s).2.intervalCallbacks allocId = some cb ∧
      (EnginePrivate.setInterval args allocId s).2.timeoutCallbacks = s.timeoutCallbacks) := by
  refine ⟨?_, ?_, ?_, ?_, ?_⟩
  · intro h
    match args, h with
    | [], _ => exact ⟨rfl, rfl⟩
    | [a0], _ => exact ⟨rfl, rfl⟩
  · rintro a0 a1 rest rfl h
    cases a0 with
    | num q => exact ⟨rfl, rfl⟩
    | func cb => exact absurd rfl (h cb)
    | global => exact ⟨rfl, rfl⟩
    | other => exact ⟨rfl, rfl⟩
  · rintro cb a1 rest rfl h
    cases a1 with
    | num q => exact absurd rfl (h q)
    | func cb2 => exact ⟨rfl, rfl⟩
    | global => exact ⟨rfl, rfl⟩
    | other => exact ⟨rfl, rfl⟩
  · rintro cb q rest rfl rfl
    exact ⟨by simp [EnginePrivate.setTimeout], by simp [EnginePrivate.setInterval]⟩
  · rintro cb q rest rfl h
    refine ⟨by simp [EnginePrivate.setTimeout, h], ?_, ?_, by simp [EnginePrivate.setInterval, h],
      ?_, ?_⟩
    · simp [EnginePrivate.setTimeout, h, hfind_hinsert_self]
    · simp [EnginePrivate.setTimeout, h]
    · simp [EnginePrivate.setInterval, h, hfind_hinsert_self]
    · simp [EnginePrivate.setInterval, h]

/-- C5 witness: concrete instances — `setTimeout()` with no arguments
errors with the state untouched; a string-free bad-callback call
errors; `allocId = 0` gives the scheduling error; a valid call with
host id 4 and delay 10 records callback 9 under id 4. -/
theorem c5_set_timer_contract_witness :
    (EnginePrivate.setTimeout ([] : List (JSValue Nat)) 1 ⟨[], [], []⟩ =
      (.error (.thrown "setTimeout: missing arguments"), ⟨[], [], []⟩)) ∧
    (EnginePrivate.setTimeout [JSValue.other, JSValue.num 10] 1 (⟨[], [], []⟩ : EngineState Nat) =
      (.error (.typeError "setTimeout: callback must be a function"), ⟨[], [], []⟩)) ∧
    (EnginePrivate.setTimeout [JSValue.func (9 : Nat), JSValue.other] 1 ⟨[], [], []⟩ =
      (.error (.typeError "setTimeout: timeout must be an integer"), ⟨[], [], []⟩)) ∧
    (EnginePrivate.setInterval [JSValue.func (9 : Nat), JSValue.num 10] 0 ⟨[], [], []⟩ =
      (.error (.thrown "setInterval: cannot start timer"), ⟨[], [], []⟩)) ∧
    hfind (EnginePrivate.setTimeout [JSValue.func (9 : Nat), JSValue.num 10] 4
      ⟨[], [], []⟩).2.timeoutCallbacks 4 = some 9 := by
  refine ⟨?_, ?_, ?_, ?_, ?_⟩
  · exact ((c5_set_timer_contract (⟨[], [], []⟩ : EngineState Nat) 1 []).1 (by decide)).1
  · exact ((c5_set_timer_contract (⟨[], [], []⟩ : EngineState Nat) 1
      [JSValue.other, JSValue.num 10]).2.1 JSValue.other (JSValue.num 10) [] rfl
      (fun cb => by simp)).1
  · exact ((c5_set_timer_contract (⟨[], [], []⟩ : EngineState Nat) 1
      [JSValue.func 9, JSValue.other]).2.2.1 9 JSValue.other [] rfl
      (fun q => by simp)).1
  · exact ((c5_set_timer_contract (⟨[], [], []⟩ : EngineState Nat) 0
      [JSValue.func 9, JSValue.num 10]).2.2.2.1 9 10 [] rfl rfl).2
  · exact ((c5_set_timer_contract (⟨[], [], []⟩ : EngineState Nat) 4
      [JSValue.func 9, JSValue.num 10]).2.2.2.2 9 10 [] rfl (by decide)).2.1

/-- C3 (amended): for every call to `nextTick` with a callable
argument, the callback is wrapped in a `NextTickEvent` and posted to
the host loop at the HIGHEST dispatch priority (`INT_MAX`), not the
lowest; among the `INT_MAX`-priority next-tick wake-ups already queued
the new one is placed last (FIFO), any external event posted at a
priority up to `INT_MAX` lands after the queued wake-ups, and each
dispatched wake-up consumes exactly the one callback it carries,
invoked with no arguments and the global object as receiver. -/
theorem c3_next_tick_amended {α : Type} (cb : α) (queue : List (Posted α)) :
    EnginePrivate.nextTick [JSValue.func cb] queue =
      .ok (postEvent queue ⟨QtEvent.nextTickEv cb, intMax⟩) ∧
    ((∀ x ∈ queue, x.priority = intMax) →
      postEvent queue ⟨QtEvent.nextTickEv cb, intMax⟩ =
        queue ++ [⟨QtEvent.nextTickEv cb, intMax⟩]) ∧
    (∀ (p : Int) (tag : Nat), (∀ x ∈ queue, x.priority = intMax) → p ≤ intMax →
      postEvent queue ⟨QtEvent.externalEv tag, p⟩ =
        queue ++ [⟨QtEvent.externalEv tag, p⟩]) ∧
    EnginePrivate.customEvent (QtEvent.nextTickEv cb) = some ⟨cb, [], JSValue.global⟩ := by
  refine ⟨rfl, ?_, ?_, rfl⟩
  · intro h
    exact postEvent_eq_append queue _ (fun x hx => by rw [h x hx]; exact lt_irrefl _)
  · intro p tag h hp
    exact postEvent_eq_append queue _ (fun x hx => by rw [h x hx]; exact not_lt.mpr hp)

/-- C3 witness: concrete instance — a second next-tick wake-up lands
after the first (FIFO), and an external event posted afterwards at
normal priority 0 lands after both wake-ups. -/
theorem c3_next_tick_amended_witness :
    EnginePrivate.nextTick [JSValue.func (2 : Nat)] [⟨QtEvent.nextTickEv 1, intMax⟩] =
      .ok [⟨QtEvent.nextTickEv 1, intMax⟩, ⟨QtEvent.nextTickEv 2, intMax⟩] ∧
    postEvent [⟨QtEvent.nextTickEv (1 : Nat), intMax⟩, ⟨QtEvent.nextTickEv 2, intMax⟩]
      ⟨QtEvent.externalEv 0, 0⟩ =
      [⟨QtEvent.nextTickEv 1, intMax⟩, ⟨QtEvent.nextTickEv 2, intMax⟩,
       ⟨QtEvent.externalEv 0, 0⟩] := by
  constructor
  · have h := (c3_next_tick_amended (2 : Nat) [⟨QtEvent.nextTickEv 1, intMax⟩])
    rw [h.1, h.2.1 (by intro x hx; simp at hx; rw [hx])]
    rfl
  · have h := (c3_next_tick_amended (2 : Nat)
      [⟨QtEvent.nextTickEv 1, intMax⟩, ⟨QtEvent.nextTickEv 2, intMax⟩])
    rw [h.2.2.1 0 0 (by intro x hx; simp at hx; rcases hx with h1 | h1 <;> rw [h1]) (by decide)]
    rfl

/-- C6 counterexample: the claim says every numeric `delayMs ≤ 0` is
scheduled with delay exactly 1.  The source first coerces the delay
with `toInt32`, which wraps modulo 2^32: the numeric delay
`-4294967291 ≤ 0` coerces to `5`, so `setTimeout` and `setInterval`
schedule the host timer with delay 5, not 1. -/
theorem c6_wraparound_counterexample :
    ((-4294967291 : ℚ) ≤ 0) ∧
    hfind (EnginePrivate.setTimeout [JSValue.func (0 : Nat), JSValue.num (-4294967291)] 1
      (⟨[], [], []⟩ : EngineState Nat)).2.hostTimers 1 = some 5 ∧
    hfind (EnginePrivate.setInterval [JSValue.func (0 : Nat), JSValue.num (-4294967291)] 1
      (⟨[], [], []⟩ : EngineState Nat)).2.hostTimers 1 = some 5 := by
  refine ⟨by decide, by decide, by decide⟩

/-- C6 (amended): the delay is first coerced with `toInt32`; whenever
the coerced delay is ≤ 0 (in particular for every numeric `delayMs` in
`[-2^31, 0]`) `setTimeout` and `setInterval` schedule the host timer
with delay exactly 1, and whenever the coerced delay is positive it is
passed through unchanged (so positive integral delays below 2^31 are
scheduled as given). -/
theorem c6_clamp_after_toInt32 {α : Type} (s : EngineState α) (cb : α) (q : ℚ)
    (allocId : Int) (rest : List (JSValue α)) :
    (allocId ≠ 0 → toInt32 q ≤ 0 →
      hfind (EnginePrivate.setTimeout (JSValue.func cb :: JSValue.num q :: rest) allocId
        s).2.hostTimers allocId = some 1 ∧
      hfind (EnginePrivate.setInterval (JSValue.func cb :: JSValue.num q :: rest) allocId
        s).2.hostTimers allocId = some 1) ∧
    (allocId ≠ 0 → 0 < toInt32 q →
      hfind (EnginePrivate.setTimeout (JSValue.func cb :: JSValue.num q :: rest) allocId
        s).2.hostTimers allocId = some (toInt32 q) ∧
      hfind (EnginePrivate.setInterval (JSValue.func cb :: JSValue.num q :: rest) allocId
        s).2.hostTimers allocId = some (toInt32 q)) ∧
    (∀ n : Int, 0 < n → n < 2147483648 → toInt32 (n : ℚ) = n) := by
  refine ⟨?_, ?_, ?_⟩
  · intro h1 h2
    have hc : clampDelay (toInt32 q) = 1 := by rw [clampDelay, if_pos h2]
    constructor
    · simp [EnginePrivate.setTimeout, h1, hc, hfind_hinsert_self]
    · simp [EnginePrivate.setInterval, h1, hc, hfind_hinsert_self]
  · intro h1 h2
    have hc : clampDelay (toInt32 q) = toInt32 q := by
      rw [clampDelay, if_neg (not_le.mpr h2)]
    constructor
    · simp [EnginePrivate.setTimeout, h1, hc, hfind_hinsert_self]
    · simp [EnginePrivate.setInterval, h1, hc, hfind_hinsert_self]
  · intro n h1 h2
    exact toInt32_intCast n (by omega) h2

/-- C6 witness: concrete instances — delays 0 and -5 are scheduled as
1, delay 10 passes through, and 10 survives the `toInt32` coercion. -/
theorem c6_clamp_after_toInt32_witness :
    hfind (EnginePrivate.setTimeout [JSValue.func (0 : Nat), JSValue.num 0] 1
      (⟨[], [], []⟩ : EngineState Nat)).2.hostTimers 1 = some 1 ∧
    hfind (EnginePrivate.setInterval [JSValue.func (0 : Nat), JSValue.num (-5)] 1
      (⟨[], [], []⟩ : EngineState Nat)).2.hostTimers 1 = some 1 ∧
    hfind (EnginePrivate.setTimeout [JSValue.func (0 : Nat), JSValue.num 10] 1
      (⟨[], [], []⟩ : EngineState Nat)).2.hostTimers 1 = some (toInt32 10) ∧
    toInt32 ((10 : Int) : ℚ) = 10 := by
  refine ⟨?_, ?_, ?_, ?_⟩
  · exact ((c6_clamp_after_toInt32 (⟨[], [], []⟩ : EngineState Nat) 0 0 1 []).1
      (by decide) (by decide)).1
  · exact ((c6_clamp_after_toInt32 (⟨[], [], []⟩ : EngineState Nat) 0 (-5) 1 []).1
      (by decide) (by decide)).2
  · exact ((c6_clamp_after_toInt32 (⟨[], [], []⟩ : EngineState Nat) 0 10 1 []).2.1
      (by decide) (by decide)).1
  · exact ((c6_clamp_after_toInt32 (⟨[], [], []⟩ : EngineState Nat) 0 10 1 []).2.2 10
      (by decide) (by decide))

/-- C7: the error bridge produces an exception whose message is the
OS-provided string for the error code (`strerror`), whose `errno`
property always equals the code, whose `syscall` property is present
exactly when a non-empty syscall string was supplied (and then equals
it), and whose `path` property is present exactly when a non-empty path
was supplied — `throwErrnoException` itself passes no path, so its
exceptions never carry one. -/
theorem c7_errno_exception_fields (strerrorFn : Int → String) (errorNo : Int)
    (syscall path : String) :
    (throwErrnoException strerrorFn errorNo syscall).message = strerrorFn errorNo ∧
    (throwErrnoException strerrorFn errorNo syscall).errno = errorNo ∧
    (syscall ≠ "" → (throwErrnoException strerrorFn errorNo syscall).syscall = some syscall) ∧
    (syscall = "" → (throwErrnoException strerrorFn errorNo syscall).syscall = none) ∧
    (throwErrnoException strerrorFn errorNo syscall).path = none ∧
    (errnoExceptionObject (strerrorFn errorNo) errorNo syscall path).errno = errorNo ∧
    (path ≠ "" → (errnoExceptionObject (strerrorFn errorNo) errorNo syscall path).path =
      some path) ∧
    (path = "" → (errnoExceptionObject (strerrorFn errorNo) errorNo syscall path).path =
      none) := by
  refine ⟨rfl, rfl, ?_, ?_, rfl, rfl, ?_, ?_⟩
  · intro h; simp [throwErrnoException, errnoExceptionObject, h]
  · intro h; simp [throwErrnoException, errnoExceptionObject, h]
  · intro h; simp [errnoExceptionObject, h]
  · intro h; simp [errnoExceptionObject, h]

/-- C7 witness: concrete instance — error code 2 with syscall `"open"`
and no path yields `errno = 2`, `syscall = some "open"`, no path. -/
theorem c7_errno_exception_fields_witness :
    (throwErrnoException (fun _ => "No such file or directory") 2 "open").message =
      "No such file or directory" ∧
    (throwErrnoException (fun _ => "No such file or directory") 2 "open").errno = 2 ∧
    (throwErrnoException (fun _ => "No such file or directory") 2 "open").syscall =
      some "open" ∧
    (throwErrnoException (fun _ => "No such file or directory") 2 "open").path = none := by
  have h := c7_errno_exception_fields (fun _ => "No such file or directory") 2 "open" ""
  exact ⟨h.1, h.2.1, h.2.2.1 (by decide), h.2.2.2.2.1⟩

/-- C8: every dispatched timer callback and every dispatched next-tick
callback is invoked with zero arguments and with the global object as
the call receiver. -/
theorem c8_callback_invocation_shape {α : Type} (s : EngineState α) (timerId : Int)
    (inv inv2 : Invocation α) (e : QtEvent α) :
    ((EnginePrivate.timerEvent timerId s).2 = some inv →
      inv.args = [] ∧ inv.thisObject = JSValue.global) ∧
    (EnginePrivate.customEvent e = some inv2 →
      inv2.args = [] ∧ inv2.thisObject = JSValue.global) := by
  constructor
  · intro h
    unfold EnginePrivate.timerEvent at h
    cases h1 : hfind s.timeoutCallbacks timerId with
    | some cb =>
      rw [h1] at h
      simp only [Option.some.injEq] at h
      subst h
      exact ⟨rfl, rfl⟩
    | none =>
      rw [h1] at h
      cases h2 : hfind s.intervalCallbacks timerId with
      | some cb =>
        rw [h2] at h
        simp only [Option.some.injEq] at h
        subst h
        exact ⟨rfl, rfl⟩
      | none =>
        rw [h2] at h
        exact Option.noConfusion h
  · intro h
    cases e with
    | nextTickEv cb =>
      simp only [EnginePrivate.customEvent, Option.some.injEq] at h
      subst h
      exact ⟨rfl, rfl⟩
    | externalEv tag => exact Option.noConfusion h

/-- C8 witness: concrete dispatches of a timer callback and a next-tick
callback both carry no arguments and the global receiver. -/
theorem c8_callback_invocation_shape_witness :
    ((EnginePrivate.timerEvent 1 (⟨[(1, 10)], [], [(1, 5)]⟩ : EngineState Nat)).2 =
      some ⟨10, [], JSValue.global⟩) ∧
    ((⟨10, [], JSValue.global⟩ : Invocation Nat).args = [] ∧
      (⟨10, [], JSValue.global⟩ : Invocation Nat).thisObject = JSValue.global) ∧
    (EnginePrivate.customEvent (QtEvent.nextTickEv (7 : Nat)) =
      some ⟨7, [], JSValue.global⟩) ∧
    ((⟨7, [], JSValue.global⟩ : Invocation Nat).args = [] ∧
      (⟨7, [], JSValue.global⟩ : Invocation Nat).thisObject = JSValue.global) := by
  refine ⟨by decide, ?_, rfl, ?_⟩
  · exact (c8_callback_invocation_shape (⟨[(1, 10)], [], [(1, 5)]⟩ : EngineState Nat) 1
      ⟨10, [], JSValue.global⟩ ⟨10, [], JSValue.global⟩ (QtEvent.nextTickEv 10)).1 (by decide)
  · exact (c8_callback_invocation_shape (⟨[], [], []⟩ : EngineState Nat) 1
      ⟨7, [], JSValue.global⟩ ⟨7, [], JSValue.global⟩ (QtEvent.nextTickEv 7)).2 rfl

/-- C9: numeric arguments to `setTimeout`, `setInterval`,
`clearTimeout` and `clearInterval` are coerced with `toInt32`, which
truncates fractional values toward zero: the scheduled delay is always
`clampDelay (toInt32 delayMs)` for both timer-starting calls, `5.9`
coerces to `5` and `1.9` to `1`, `setTimeout(cb, 5.9)` schedules the
host timer with delay 5, `clearTimeout(1.9)` removes the timer
registered under id 1, and `clearInterval(1.9)` operates on interval
id 1. -/
theorem c9_toInt32_coercion :
    (∀ (q : ℚ) (s : EngineState Nat) (cb : Nat) (allocId : Int), allocId ≠ 0 →
      hfind (EnginePrivate.setTimeout [JSValue.func cb, JSValue.num q] allocId
        s).2.hostTimers allocId = some (clampDelay (toInt32 q)) ∧
      hfind (EnginePrivate.setInterval [JSValue.func cb, JSValue.num q] allocId
        s).2.hostTimers allocId = some (clampDelay (toInt32 q))) ∧
    toInt32 (5.9 : ℚ) = 5 ∧
    toInt32 (1.9 : ℚ) = 1 ∧
    (∀ (s : EngineState Nat) (cb : Nat) (allocId : Int), allocId ≠ 0 →
      hfind (EnginePrivate.setTimeout [JSValue.func cb, JSValue.num (5.9 : ℚ)] allocId
        s).2.hostTimers allocId = some 5) ∧
    (∀ (cb : Nat) (hs : List (Int × Int)),
      EnginePrivate.clearTimeout [JSValue.num (1.9 : ℚ)]
        (⟨[(1, cb)], [], hs⟩ : EngineState Nat) = (.ok (), ⟨[], [], hremove hs 1⟩)) ∧
    (∀ (cb : Nat) (hs : List (Int × Int)),
      EnginePrivate.clearInterval [JSValue.num (1.9 : ℚ)]
        (⟨[], [(2, cb)], hs⟩ : EngineState Nat) = (.ok (), ⟨[], [(2, cb)], hremove hs 1⟩)) := by
  refine ⟨?_, toInt32_five_nine, toInt32_one_nine, ?_, ?_, ?_⟩
  · intro q s cb allocId h
    constructor
    · simp [EnginePrivate.setTimeout, h, hfind_hinsert_self]
    · simp [EnginePrivate.setInterval, h, hfind_hinsert_self]
  · intro s cb allocId h
    have hc : clampDelay (toInt32 (5.9 : ℚ)) = 5 := by rw [toInt32_five_nine]; decide
    simp [EnginePrivate.setTimeout, h, hc, hfind_hinsert_self]
  · intro cb hs
    simp [EnginePrivate.clearTimeout, toInt32_one_nine, hcontains, hfind, hremove,
      List.filter_cons]
  · intro cb hs
    simp [EnginePrivate.clearInterval, toInt32_one_nine, hcontains, hfind, hremove,
      List.filter_cons]

/-- C9 witness: concrete instance — `setTimeout(cb, 5.9)` with host id
1 schedules delay 5, and `clearTimeout(1.9)` removes the pending
one-shot timer registered under id 1 together with its host timer. -/
theorem c9_toInt32_coercion_witness :
    hfind (EnginePrivate.setTimeout [JSValue.func (0 : Nat), JSValue.num (5.9 : ℚ)] 1
      (⟨[], [], []⟩ : EngineState Nat)).2.hostTimers 1 = some 5 ∧
    EnginePrivate.clearTimeout [JSValue.num (1.9 : ℚ)]
      (⟨[(1, 0)], [], [(1, 5)]⟩ : EngineState Nat) = (.ok (), ⟨[], [], hremove [(1, 5)] 1⟩) := by
  constructor
  · exact (c9_toInt32_coercion.2.2.2.1 (⟨[], [], []⟩ : EngineState Nat) 0 1 (by decide))
  · exact (c9_toInt32_coercion.2.2.2.2.1 0 [(1, 5)])

/-- C10: every argument error raised by `nextTick` carries a message
naming `setInterval` rather than `nextTick` itself: the zero-argument
error message is `"setInterval: missing arguments"` and the
non-callable-argument message is
`"setInterval: callback must be a function"`. -/
theorem c10_next_tick_error_messages {α : Type} (args : List (JSValue α))
    (queue : List (Posted α)) (e : JSError) :
    (EnginePrivate.nextTick args queue = .error e →
      e = .thrown "setInterval: missing arguments" ∨
      e = .typeError "setInterval: callback must be a function") ∧
    EnginePrivate.nextTick ([] : List (JSValue α)) queue =
      .error (.thrown "setInterval: missing arguments") ∧
    (∀ q : ℚ, EnginePrivate.nextTick [JSValue.num q] queue =
      .error (.typeError "setInterval: callback must be a function")) := by
  refine ⟨?_, rfl, fun q => rfl⟩
  intro h
  match args with
  | [] =>
    injection h with h1
    exact Or.inl h1.symm
  | a0 :: rest =>
    cases a0 with
    | num q =>
      injection h with h1
      exact Or.inr h1.symm
    | func cb => exact Except.noConfusion h
    | global =>
      injection h with h1
      exact Or.inr h1.symm
    | other =>
      injection h with h1
      exact Or.inr h1.symm

/-- C10 witness: concrete instance — `nextTick(3)` (a numeric, hence
non-callable, argument) raises the type error whose message names
`setInterval`, and that error is one of the two `setInterval`-named
messages. -/
theorem c10_next_tick_error_messages_witness :
    EnginePrivate.nextTick [JSValue.num (3 : ℚ)] ([] : List (Posted Nat)) =
      .error (.typeError "setInterval: callback must be a function") ∧
    ((.typeError "setInterval: callback must be a function" : JSError) =
        .thrown "setInterval: missing arguments" ∨
      (.typeError "setInterval: callback must be a function" : JSError) =
        .typeError "setInterval: callback must be a function") := by
  refine ⟨rfl, ?_⟩
  exact (c10_next_tick_error_messages [JSValue.num (3 : ℚ)] ([] : List (Posted Nat))
    (.typeError "setInterval: callback must be a function")).1 rfl
